import Mathlib

/-!
Shallow embedding of the AstroBot task-coordination layer.

The definitions below are translated from the repository's source:
  * `src/src/utils/redis_client.py`  — the StateStore over Redis hashes,
  * `src/consumer.py`                — the Worker,
  * `src/src/telegram/bot.py` and `src/bot.py` — the CompletionMonitor,
    the result-event consumer and the reconnect supervisor,
  * `src/src/utils/language_model.py` — the conversation-history layer.

Time is an explicit `Nat` parameter (the code reads the event-loop clock);
Redis TTLs are modelled as absolute expiry deadlines, with reads treating an
expired key as absent and writes on an expired key creating a fresh hash, as
Redis does.
-/

/-- Record stored in the Redis hash `task:{correlation_id}`
(fields written by `set_pending` / `set_working` / `set_result`). -/
structure TaskRecord where
  status : Option String := none
  payload : Option String := none
  result : Option String := none
  created_at : Option String := none
  completed_at : Option String := none
deriving DecidableEq

/-- The Redis keyspace restricted to what the task layer uses: a map from key
to hash record, plus an optional absolute expiry deadline per key
(`none` = no TTL). -/
@[ext] structure RedisState where
  tasks : String → Option TaskRecord
  expireAt : String → Option Nat

/-- State with no keys at all. -/
def emptyState : RedisState :=
  { tasks := fun _ => none, expireAt := fun _ => none }

/-- Key scheme of `redis_client.py`: every task lives under `task:{id}`. -/
def taskKey (correlation_id : String) : String :=
  "task:" ++ correlation_id

/-- Read a key honouring expiry: a key whose deadline has passed behaves as
absent (Redis expiry semantics). -/
def liveTask (s : RedisState) (now : Nat) (key : String) : Option TaskRecord :=
  match s.expireAt key with
  | some d => if now < d then s.tasks key else none
  | none => s.tasks key

/-- Redis `HSET` with a field update `f`: merges into the existing live hash,
or creates a fresh hash (with no TTL) when the key is absent or expired. -/
def hsetWith (s : RedisState) (now : Nat) (key : String)
    (f : TaskRecord → TaskRecord) : RedisState :=
  let live := liveTask s now key
  { tasks := fun k => if k = key then some (f (live.getD {})) else s.tasks k
  , expireAt := fun k =>
      if k = key then (if live.isSome then s.expireAt key else none)
      else s.expireAt k }

/-- Redis `EXPIRE key ttl`: re-arms the deadline of an existing live key;
no-op on a missing key. -/
def expireKey (s : RedisState) (now ttl : Nat) (key : String) : RedisState :=
  if (liveTask s now key).isSome then
    { tasks := s.tasks
    , expireAt := fun k => if k = key then some (now + ttl) else s.expireAt k }
  else s

/-- `RedisClient.set_pending(correlation_id, payload, ttl=300)`:
`HSET` status/payload/created_at then `EXPIRE ttl` (default 300). -/
def set_pending (s : RedisState) (correlation_id payload : String) (now : Nat)
    (ttl : Nat := 300) : RedisState :=
  let s1 := hsetWith s now (taskKey correlation_id) fun r =>
    { r with status := some "pending", payload := some payload
           , created_at := some (toString now) }
  expireKey s1 now ttl (taskKey correlation_id)

/-- `RedisClient.set_working(correlation_id)`: a single-field
`HSET status working`; no TTL change. -/
def set_working (s : RedisState) (correlation_id : String) (now : Nat) : RedisState :=
  hsetWith s now (taskKey correlation_id) fun r => { r with status := some "working" }

/-- `RedisClient.set_result(correlation_id, result)`: `HSET` of
status := completed (unconditionally — the method takes no status argument),
result and completed_at, then `EXPIRE 60`. -/
def set_result (s : RedisState) (correlation_id result : String) (now : Nat) : RedisState :=
  let s1 := hsetWith s now (taskKey correlation_id) fun r =>
    { r with status := some "completed", result := some result
           , completed_at := some (toString now) }
  expireKey s1 now 60 (taskKey correlation_id)

/-- `RedisClient.get_status`: `HGET task:{id} status`. -/
def get_status (s : RedisState) (now : Nat) (correlation_id : String) : Option String :=
  (liveTask s now (taskKey correlation_id)).bind (·.status)

/-- `RedisClient.get_result`: `HGET task:{id} result`. -/
def get_result (s : RedisState) (now : Nat) (correlation_id : String) : Option String :=
  (liveTask s now (taskKey correlation_id)).bind (·.result)

/-- `RedisClient.get_payload`: `HGET task:{id} payload`. -/
def get_payload (s : RedisState) (now : Nat) (correlation_id : String) : Option String :=
  (liveTask s now (taskKey correlation_id)).bind (·.payload)

/-- `RedisClient.is_pending`: reads the status and compares with "pending". -/
def is_pending (s : RedisState) (now : Nat) (correlation_id : String) : Bool :=
  get_status s now correlation_id == some "pending"

/-- `RedisClient.cleanup_task`: `DEL task:{id}`. -/
def cleanup_task (s : RedisState) (correlation_id : String) : RedisState :=
  { tasks := fun k => if k = taskKey correlation_id then none else s.tasks k
  , expireAt := fun k => if k = taskKey correlation_id then none else s.expireAt k }

/-!
Worker model — `src/consumer.py` (`ConversationalAstrologyWorker`).
The Generator boundary (`generate_reading`) is modelled as a parameter of
type `Except String String`: `.ok text` when the call returns, `.error e`
when it raises with message `e`.
-/

/-- Decoded request event, with every field optional as `dict.get` is. -/
structure TaskEvent where
  correlation_id : Option String := none
  user_id : Option String := none
  user_message : Option String := none
  type : Option String := none
  status : Option String := none
deriving DecidableEq

/-- Result payload built by `process_conversation_task`. -/
structure ResultPayload where
  correlation_id : String
  user_id : String
  status : String
  result : String
  completed_at : String
  type : String
deriving DecidableEq

/-- The fixed user-safe text of the worker's error payload
(`consumer.py`, `process_conversation_task` except branch). -/
def fallback_error_message : String :=
  "Sorry, I\x27m having trouble responding right now. Please try again in a moment."

/-- Python f-string interpolation of an optional value: `None` prints as
"None" (as in `f"task:{correlation_id}"`). -/
def pyStr : Option String → String
  | some s => s
  | none => "None"

/-- `ConversationalAstrologyWorker.process_conversation_task`: validates the
event fields (Python truthiness), re-reads the status, returns `none` when the
task is no longer pending, otherwise builds the completed payload from the
Generator's text, or — when the Generator raises — the fixed-text error
payload. -/
def process_conversation_task (s : RedisState) (now : Nat)
    (gen : Except String String) (task : TaskEvent) : Option ResultPayload :=
  match task.correlation_id, task.user_id, task.user_message with
  | some c, some u, some m =>
    if c ≠ "" ∧ u ≠ "" ∧ m ≠ "" then
      if get_status s now c ≠ some "pending" then none
      else
        match gen with
        | .ok resp =>
            some ⟨c, u, "completed", resp, toString now,
                  "conversational_astrology_result"⟩
        | .error _ =>
            some ⟨c, u, "error", fallback_error_message, toString now,
                  "conversational_astrology_result"⟩
    else none
  | _, _, _ => none

/-- The Worker's idempotency guard in `on_event`: type is
"conversational_astrology", event status is "pending", and `is_pending` holds
in the store. A pure read — it performs no write to the store. -/
def worker_guard (s : RedisState) (now : Nat) (ev : TaskEvent) : Bool :=
  ev.type == some "conversational_astrology" &&
  ev.status == some "pending" &&
  is_pending s now (pyStr ev.correlation_id)

/-- `ConversationalAstrologyWorker.on_event`: guard, process, publish the
result payload, and update Redis via `set_result` when the payload's status is
"completed" or "error". Returns the new store and the published events. -/
def worker_on_event (s : RedisState) (now : Nat) (gen : Except String String)
    (ev : TaskEvent) : RedisState × List ResultPayload :=
  if worker_guard s now ev then
    match process_conversation_task s now gen ev with
    | some result =>
        let s2 :=
          if result.status = "completed" ∨ result.status = "error" then
            set_result s result.correlation_id result.result now
          else s
        (s2, [result])
    | none => (s, [])
  else (s, [])

/-- Two deliveries of the same event to two worker instances, interleaved so
that both run their (read-only) guard before either performs any write: since
`worker_guard` does not mutate the store, both reads see the same state `s`.
Counts how many of the two callers pass the guard. -/
def interleaved_guard_passes (s : RedisState) (now : Nat) (ev : TaskEvent) : Nat :=
  (if worker_guard s now ev then 1 else 0) +
  (if worker_guard s now ev then 1 else 0)

/-!
CompletionMonitor — `monitor_task_completion` in `src/src/telegram/bot.py`
and `src/bot.py` (identical control flow; only the reply strings differ).
Reads are abstracted as time-indexed observations `readS`/`readR` of
`get_status`/`get_result`; each pending iteration sleeps 2 s, the loop runs
while elapsed < 300. The function returns the outcome together with the
elapsed time at which the loop exited.
-/

/-- Observable outcome of the monitor: the result text was sent; the
"no result" apology was sent; or the timeout/expired message was sent. -/
inductive MonitorOutcome
  | replied (text : String)
  | noResult
  | timedOut
deriving DecidableEq

/-- `monitor_task_completion`: while elapsed < 300, read the status;
"completed" → reply with the result (apology when the result is missing or
empty, Python truthiness); "pending" → sleep 2 and loop; any other status
(working, error, or an absent/expired record) → break; after the loop the
timeout message is sent. -/
def monitor_task_completion (readS readR : Nat → Option String)
    (elapsed : Nat) : MonitorOutcome × Nat :=
  if _h : elapsed < 300 then
    match readS elapsed with
    | some st =>
        if st = "completed" then
          match readR elapsed with
          | some r => if r ≠ "" then (.replied r, elapsed) else (.noResult, elapsed)
          | none => (.noResult, elapsed)
        else if st = "pending" then
          monitor_task_completion readS readR (elapsed + 2)
        else (.timedOut, elapsed)
    | none => (.timedOut, elapsed)
  else (.timedOut, elapsed)
termination_by 300 - elapsed
decreasing_by omega

/-!
ConsumerSupervisor — `run_consumer_loop` in `src/src/telegram/bot.py` and
`src/bot.py`: `while True: try: subscribe() except: sleep(10)`. Its observable
trace, for a run in which the subscription raises `n` consecutive times and
the (n+1)-th attempt then runs without returning, is produced by unrolling
the loop body once per failure.
-/

/-- Observable actions of the supervisor loop. `processExit` would be emitted
if the loop ever terminated; the `while True` body has no break or return, so
no trace contains it. -/
inductive SupEvent
  | subscribeAttempt
  | sleepDelay (seconds : Nat)
  | processExit
deriving DecidableEq

/-- Trace of `run_consumer_loop` when the subscription fails `n` consecutive
times and the next attempt never returns: each failing iteration is one
attempt followed by `sleep(10)`, then the final attempt. -/
def run_consumer_loop_trace : Nat → List SupEvent
  | 0 => [.subscribeAttempt]
  | n + 1 => .subscribeAttempt :: .sleepDelay 10 :: run_consumer_loop_trace n

/-!
Conversation history — `src/src/utils/language_model.py`
(`ConversationalAstrologyAssistant`). The history of user `u` lives in the
hash `conversation_history:{u}`, field "messages"; modelled as a map from
user id to message list (a missing or unparsable entry reads as `[]`, which
is what `get_conversation_history` returns on any failure).
-/

/-- One chat message, `{"role": ..., "content": ...}`. -/
structure ChatMsg where
  role : String
  content : String
deriving DecidableEq

/-- Per-user stored conversation history. -/
def HistStore := String → List ChatMsg

/-- History store with no entries. -/
def emptyHist : HistStore := fun _ => []

/-- `save_conversation_history`: truncates to the last 10 messages
(`messages[-10:]`) when longer than 10, then writes the list. -/
def save_conversation_history (st : HistStore) (user_id : String)
    (messages : List ChatMsg) : HistStore :=
  let msgs :=
    if messages.length > 10 then messages.drop (messages.length - 10)
    else messages
  fun k => if k = user_id then msgs else st k

/-- The history update performed by a successful `generate_response`: read the
history, append the user message and the assistant response, save. -/
def generate_response_update (st : HistStore) (user_id userMsg resp : String) :
    HistStore :=
  save_conversation_history st user_id
    (st user_id ++ [⟨"user", userMsg⟩, ⟨"assistant", resp⟩])

/-- A history-layer operation: a successful generate (which saves), or a
direct save. -/
inductive HistOp
  | gen (user_id userMsg resp : String)
  | save (user_id : String) (messages : List ChatMsg)

/-- Apply a sequence of history operations to a store. -/
def applyHistOps (st : HistStore) : List HistOp → HistStore
  | [] => st
  | .gen u m r :: rest => applyHistOps (generate_response_update st u m r) rest
  | .save u msgs :: rest => applyHistOps (save_conversation_history st u msgs) rest

/-!
Front-end result consumer — `start_result_consumer.on_completed_event` in
`src/src/telegram/bot.py` and `src/bot.py` (identical): decode, then write
`set_result` only when status == "completed" and both correlation_id and
result are truthy (present and non-empty).
-/

/-- Decoded result event, every field optional as `dict.get` is. -/
structure ResultEventMsg where
  correlation_id : Option String := none
  status : Option String := none
  result : Option String := none
deriving DecidableEq

/-- Python truthiness of an optional string: `None` and `""` are falsy. -/
def truthy : Option String → Bool
  | some s => s ≠ ""
  | none => false

/-- `on_completed_event`: store the result via `set_result` iff
`status == "completed" and correlation_id and result`; otherwise the store is
left untouched. -/
def on_completed_event (s : RedisState) (now : Nat) (ev : ResultEventMsg) :
    RedisState :=
  if ev.status == some "completed" && truthy ev.correlation_id && truthy ev.result
  then set_result s (pyStr ev.correlation_id) (pyStr ev.result) now
  else s

/-!
Helper lemmas about the store primitives.
-/

/-- After an `HSET` the written key reads back as the merged record. -/
theorem liveTask_hsetWith_self (s : RedisState) (now : Nat) (key : String)
    (f : TaskRecord → TaskRecord) :
    liveTask (hsetWith s now key f) now key
      = some (f ((liveTask s now key).getD {})) := by
  unfold hsetWith liveTask
  cases hE : s.expireAt key with
  | none =>
      cases hT : s.tasks key <;> simp [hE, hT]
  | some d =>
      by_cases hd : now < d
      · cases hT : s.tasks key <;> simp [hE, hT, hd]
      · simp [hE, hd]

/-- An `HSET` leaves every other key untouched. -/
theorem hsetWith_frame (s : RedisState) (now : Nat) (key : String)
    (f : TaskRecord → TaskRecord) (k : String) (hk : k ≠ key) :
    (hsetWith s now key f).tasks k = s.tasks k ∧
    (hsetWith s now key f).expireAt k = s.expireAt k := by
  unfold hsetWith
  simp [hk]

/-- Evaluation of `set_result` at the written key: the merged record, and a
deadline re-armed to `now + 60`. -/
theorem set_result_eval (s : RedisState) (c r : String) (now : Nat) :
    (set_result s c r now).tasks (taskKey c)
      = some { (liveTask s now (taskKey c)).getD {} with
                 status := some "completed", result := some r,
                 completed_at := some (toString now) } ∧
    (set_result s c r now).expireAt (taskKey c) = some (now + 60) := by
  have h := liveTask_hsetWith_self s now (taskKey c)
    (fun t => { t with status := some "completed", result := some r,
                       completed_at := some (toString now) })
  simp only [set_result, expireKey]
  rw [h]
  simp only [Option.isSome_some, if_true]
  refine ⟨?_, by simp⟩
  simp [hsetWith]

/-- Evaluation of `set_pending` at the written key. -/
theorem set_pending_eval (s : RedisState) (c p : String) (now ttl : Nat) :
    (set_pending s c p now ttl).tasks (taskKey c)
      = some { (liveTask s now (taskKey c)).getD {} with
                 status := some "pending", payload := some p,
                 created_at := some (toString now) } ∧
    (set_pending s c p now ttl).expireAt (taskKey c) = some (now + ttl) := by
  have h := liveTask_hsetWith_self s now (taskKey c)
    (fun t => { t with status := some "pending", payload := some p,
                       created_at := some (toString now) })
  simp only [set_pending, expireKey]
  rw [h]
  simp only [Option.isSome_some, if_true]
  refine ⟨?_, by simp⟩
  simp [hsetWith]

/-- Reading the status right after `set_result` (at any time before the new
deadline) yields "completed". -/
theorem get_status_set_result (s : RedisState) (c r : String) (now t : Nat)
    (ht : t < now + 60) :
    get_status (set_result s c r now) t c = some "completed" := by
  unfold get_status liveTask
  rcases set_result_eval s c r now with ⟨hT, hE⟩
  rw [hE, hT]
  simp [ht]

/-- Reading the result right after `set_result` yields the stored text. -/
theorem get_result_set_result (s : RedisState) (c r : String) (now t : Nat)
    (ht : t < now + 60) :
    get_result (set_result s c r now) t c = some r := by
  unfold get_result liveTask
  rcases set_result_eval s c r now with ⟨hT, hE⟩
  rw [hE, hT]
  simp [ht]

/-- Re-arming a TTL leaves every other key untouched. -/
theorem expireKey_frame (s : RedisState) (now ttl : Nat) (key k : String)
    (hk : k ≠ key) :
    (expireKey s now ttl key).tasks k = s.tasks k ∧
    (expireKey s now ttl key).expireAt k = s.expireAt k := by
  unfold expireKey
  split <;> simp [hk]

/-- `set_result` leaves every other key untouched. -/
theorem set_result_frame (s : RedisState) (c r : String) (now : Nat)
    (k : String) (hk : k ≠ taskKey c) :
    (set_result s c r now).tasks k = s.tasks k ∧
    (set_result s c r now).expireAt k = s.expireAt k := by
  simp only [set_result]
  constructor
  · rw [(expireKey_frame _ _ _ _ _ hk).1, (hsetWith_frame _ _ _ _ _ hk).1]
  · rw [(expireKey_frame _ _ _ _ _ hk).2, (hsetWith_frame _ _ _ _ _ hk).2]

/-- A key whose deadline lies ahead reads as its stored hash. -/
theorem liveTask_of_deadline (s : RedisState) (t d : Nat) (key : String)
    (hE : s.expireAt key = some d) (ht : t < d) :
    liveTask s t key = s.tasks key := by
  unfold liveTask
  rw [hE]
  simp [ht]

/-- Reading the key written by `set_result` before its new deadline. -/
theorem liveTask_set_result_self (s : RedisState) (c r : String) (now t : Nat)
    (ht : t < now + 60) :
    liveTask (set_result s c r now) t (taskKey c)
      = some { (liveTask s now (taskKey c)).getD {} with
                 status := some "completed", result := some r,
                 completed_at := some (toString now) } := by
  rcases set_result_eval s c r now with ⟨hT, hE⟩
  rw [liveTask_of_deadline _ _ _ _ hE ht, hT]

/-!
Claims.
-/

/-- C7 (confirmed): the expiry window applied by `set_result` is the fixed
60 s, strictly shorter than the window the record had while pending — the
`set_pending` default of 300 s (used here) and the explicit ttl=300 that both
dispatcher call sites (`handle_user_message` in `src/src/telegram/bot.py`,
`handle_dob_input` in `src/bot.py`) pass. -/
theorem c7_resolved_window_shorter (s s' : RedisState) (c p r : String)
    (t t' : Nat) :
    (set_pending s c p t).expireAt (taskKey c) = some (t + 300) ∧
    (set_pending s c p t 300).expireAt (taskKey c) = some (t + 300) ∧
    (set_result s' c r t').expireAt (taskKey c) = some (t' + 60) ∧
    60 < 300 := by
  refine ⟨(set_pending_eval s c p t 300).2, (set_pending_eval s c p t 300).2,
          (set_result_eval s' c r t').2, by omega⟩

/-- C6 (confirmed): `set_result` is idempotent — applying it twice with
identical arguments yields the very same store state as applying it once, and
after the double application the status reads "completed" and the result reads
back the stored text. -/
theorem c6_set_result_idempotent (s : RedisState) (c r : String) (t : Nat) :
    set_result (set_result s c r t) c r t = set_result s c r t ∧
    (∀ t₁ t₂ : Nat,
      get_status (set_result (set_result s c r t₁) c r t₂) t₂ c
        = some "completed" ∧
      get_result (set_result (set_result s c r t₁) c r t₂) t₂ c = some r) := by
  constructor
  · apply RedisState.ext
    · funext k
      by_cases hk : k = taskKey c
      · subst hk
        rw [(set_result_eval (set_result s c r t) c r t).1,
            (set_result_eval s c r t).1,
            liveTask_set_result_self s c r t t (by omega)]
        simp
      · rw [(set_result_frame (set_result s c r t) c r t k hk).1,
            (set_result_frame s c r t k hk).1]
    · funext k
      by_cases hk : k = taskKey c
      · subst hk
        rw [(set_result_eval (set_result s c r t) c r t).2,
            (set_result_eval s c r t).2]
      · rw [(set_result_frame (set_result s c r t) c r t k hk).2,
            (set_result_frame s c r t k hk).2]
  · intro t₁ t₂
    exact ⟨get_status_set_result _ c r t₂ t₂ (by omega),
           get_result_set_result _ c r t₂ t₂ (by omega)⟩

/-- C3 counterexample: `set_result` takes no status argument and marks the
record "completed" unconditionally, and `on_event` (consumer.py:112-114) calls
it for error payloads too — so storing an error result for "xyz" leaves the
status "completed", not "error", refuting the claim at this concrete input. -/
theorem c3_counterexample :
    get_status (set_result (set_pending emptyState "xyz" "p" 0) "xyz"
        fallback_error_message 1) 1 "xyz" = some "completed" ∧
    ¬ get_status (set_result (set_pending emptyState "xyz" "p" 0) "xyz"
        fallback_error_message 1) 1 "xyz" = some "error" := by
  decide

/-- C3 (corrected): `set_result(id, result)` has no status parameter; it sets
the status unconditionally to "completed", stores the result and
`completed_at`, and re-arms the expiry to the 60 s resolved window. -/
theorem c3_set_result_amended (s : RedisState) (c r : String) (now : Nat) :
    get_status (set_result s c r now) now c = some "completed" ∧
    get_result (set_result s c r now) now c = some r ∧
    (liveTask (set_result s c r now) now (taskKey c)).bind (·.completed_at)
      = some (toString now) ∧
    (set_result s c r now).expireAt (taskKey c) = some (now + 60) := by
  refine ⟨get_status_set_result s c r now now (by omega),
          get_result_set_result s c r now now (by omega), ?_,
          (set_result_eval s c r now).2⟩
  rw [liveTask_set_result_self s c r now now (by omega)]
  simp

/-- C5 counterexample: on a store with no record at all, `set_working "x"`
creates a fresh hash whose only field is status = "working" (Redis `HSET`
creates missing keys), refuting "a missing record is a silent no-op: the
store's state is unchanged and no record is created". -/
theorem c5_counterexample :
    emptyState.tasks (taskKey "x") = none ∧
    (set_working emptyState "x" 0).tasks (taskKey "x")
      = some { status := some "working" } ∧
    ¬ (set_working emptyState "x" 0).tasks (taskKey "x") = none := by
  decide

/-- C5 (corrected): `set_working` sets the status to "working" and leaves the
payload untouched; but on a missing (or expired) record it is not a no-op — it
creates a record whose only populated field is the status. -/
theorem c5_set_working_amended (s : RedisState) (c : String) (now : Nat) :
    get_status (set_working s c now) now c = some "working" ∧
    get_payload (set_working s c now) now c = get_payload s now c ∧
    (liveTask s now (taskKey c) = none →
      (set_working s c now).tasks (taskKey c) = some { status := some "working" }) := by
  refine ⟨?_, ?_, ?_⟩
  · unfold get_status set_working
    rw [liveTask_hsetWith_self]
    simp
  · unfold get_payload set_working
    rw [liveTask_hsetWith_self]
    cases h : liveTask s now (taskKey c) <;> simp [h]
  · intro h
    simp [set_working, hsetWith, h]

/-- C5 witness: the amended theorem at the empty store and id "w". -/
theorem c5_witness :
    get_status (set_working emptyState "w" 0) 0 "w" = some "working" ∧
    (set_working emptyState "w" 0).tasks (taskKey "w")
      = some { status := some "working" } :=
  ⟨(c5_set_working_amended emptyState "w" 0).1,
   (c5_set_working_amended emptyState "w" 0).2.2 (by decide)⟩

/-- Evaluation of the worker handler when the Generator succeeds and the task
is pending with well-formed fields: the result is stored via `set_result` and
the completed payload is published. -/
theorem worker_on_event_ok (s : RedisState) (now : Nat) (resp : String)
    (ev : TaskEvent) (c u m : String)
    (hc : ev.correlation_id = some c) (hu : ev.user_id = some u)
    (hm : ev.user_message = some m)
    (htype : ev.type = some "conversational_astrology")
    (hst : ev.status = some "pending")
    (hp : get_status s now c = some "pending")
    (hc0 : c ≠ "") (hu0 : u ≠ "") (hm0 : m ≠ "") :
    worker_on_event s now (Except.ok resp) ev
      = (set_result s c resp now,
         [⟨c, u, "completed", resp, toString now,
           "conversational_astrology_result"⟩]) := by
  have hg : worker_guard s now ev = true := by
    simp [worker_guard, htype, hst, hc, pyStr, is_pending, hp]
  unfold worker_on_event
  rw [hg]
  unfold process_conversation_task
  rw [hc, hu, hm]
  simp [hc0, hu0, hm0, hp]

/-- Evaluation of the worker handler when the Generator raises: the fixed-text
error payload is published, and it is stored via `set_result` (which marks the
record "completed"). -/
theorem worker_on_event_error (s : RedisState) (now : Nat) (e : String)
    (ev : TaskEvent) (c u m : String)
    (hc : ev.correlation_id = some c) (hu : ev.user_id = some u)
    (hm : ev.user_message = some m)
    (htype : ev.type = some "conversational_astrology")
    (hst : ev.status = some "pending")
    (hp : get_status s now c = some "pending")
    (hc0 : c ≠ "") (hu0 : u ≠ "") (hm0 : m ≠ "") :
    worker_on_event s now (Except.error e) ev
      = (set_result s c fallback_error_message now,
         [⟨c, u, "error", fallback_error_message, toString now,
           "conversational_astrology_result"⟩]) := by
  have hg : worker_guard s now ev = true := by
    simp [worker_guard, htype, hst, hc, pyStr, is_pending, hp]
  unfold worker_on_event
  rw [hg]
  unfold process_conversation_task
  rw [hc, hu, hm]
  simp [hc0, hu0, hm0, hp]

/-- C1 counterexample: the code has no claim primitive — the Worker's guard is
the read-only `is_pending` check. On a freshly created pending task "abc",
two deliveries whose guards both run before any write both pass the guard
(2 passes, not exactly 1), and the guard leaves the record in status
"pending", never "working" — refuting the claimed atomic pending→working
claim semantics at this concrete input. -/
theorem c1_counterexample :
    interleaved_guard_passes (set_pending emptyState "abc" "p" 0) 0
        { correlation_id := some "abc", user_id := some "u1",
          user_message := some "hi", type := some "conversational_astrology",
          status := some "pending" } = 2 ∧
    ¬ interleaved_guard_passes (set_pending emptyState "abc" "p" 0) 0
        { correlation_id := some "abc", user_id := some "u1",
          user_message := some "hi", type := some "conversational_astrology",
          status := some "pending" } = 1 ∧
    get_status (set_pending emptyState "abc" "p" 0) 0 "abc" = some "pending" ∧
    ¬ get_status (set_pending emptyState "abc" "p" 0) 0 "abc" = some "working" := by
  decide

/-- C1 (corrected): the StateStore provides no claim primitive; the Worker's
idempotency guard in `on_event` is the read-only `is_pending` check-then-act.
While the task is pending the guard passes without transitioning the record
(status stays "pending", never "working" at guard time), both of two callers
whose guards run before the first write pass it, and the guard starts failing
only after the worker's `set_result` write has landed. -/
theorem c1_guard_is_check_then_act (s : RedisState) (now : Nat)
    (ev : TaskEvent) (c u m : String)
    (hc : ev.correlation_id = some c) (hu : ev.user_id = some u)
    (hm : ev.user_message = some m)
    (htype : ev.type = some "conversational_astrology")
    (hst : ev.status = some "pending")
    (hp : is_pending s now c = true)
    (hc0 : c ≠ "") (hu0 : u ≠ "") (hm0 : m ≠ "") :
    worker_guard s now ev = true ∧
    get_status s now c = some "pending" ∧
    interleaved_guard_passes s now ev = 2 ∧
    (∀ resp : String,
      worker_guard ((worker_on_event s now (Except.ok resp) ev).1) now ev
        = false) := by
  have hps : get_status s now c = some "pending" := by
    simpa [is_pending] using hp
  have hg : worker_guard s now ev = true := by
    simp [worker_guard, htype, hst, hc, pyStr, is_pending, hps]
  refine ⟨hg, hps, ?_, ?_⟩
  · simp [interleaved_guard_passes, hg]
  · intro resp
    rw [worker_on_event_ok s now resp ev c u m hc hu hm htype hst hps hc0 hu0 hm0]
    simp only [worker_guard, hc, pyStr, is_pending]
    rw [get_status_set_result s c resp now now (by omega)]
    simp

/-- C1 witness: the amended theorem at the concrete pending task "abc". -/
theorem c1_witness :
    worker_guard (set_pending emptyState "abc" "p" 0) 0
        { correlation_id := some "abc", user_id := some "u1",
          user_message := some "hi", type := some "conversational_astrology",
          status := some "pending" } = true ∧
    interleaved_guard_passes (set_pending emptyState "abc" "p" 0) 0
        { correlation_id := some "abc", user_id := some "u1",
          user_message := some "hi", type := some "conversational_astrology",
          status := some "pending" } = 2 ∧
    worker_guard ((worker_on_event (set_pending emptyState "abc" "p" 0) 0
          (Except.ok "text")
          { correlation_id := some "abc", user_id := some "u1",
            user_message := some "hi", type := some "conversational_astrology",
            status := some "pending" }).1) 0
        { correlation_id := some "abc", user_id := some "u1",
          user_message := some "hi", type := some "conversational_astrology",
          status := some "pending" } = false := by
  have h := c1_guard_is_check_then_act (set_pending emptyState "abc" "p" 0) 0
    { correlation_id := some "abc", user_id := some "u1",
      user_message := some "hi", type := some "conversational_astrology",
      status := some "pending" } "abc" "u1" "hi" rfl rfl rfl rfl rfl
    (by decide) (by decide) (by decide) (by decide)
  exact ⟨h.1, h.2.2.1, h.2.2.2 "text"⟩

/-- C2 counterexample: the Generator raises ("boom") for pending task "xyz";
after the worker handler runs, `getStatus("xyz")` is "completed" — not
"error" as the claim requires — because the stored write goes through
`set_result`, which marks the record completed unconditionally. -/
theorem c2_counterexample :
    get_status ((worker_on_event (set_pending emptyState "xyz" "p" 0) 0
        (Except.error "boom")
        { correlation_id := some "xyz", user_id := some "u1",
          user_message := some "hi", type := some "conversational_astrology",
          status := some "pending" }).1) 0 "xyz" = some "completed" ∧
    ¬ get_status ((worker_on_event (set_pending emptyState "xyz" "p" 0) 0
        (Except.error "boom")
        { correlation_id := some "xyz", user_id := some "u1",
          user_message := some "hi", type := some "conversational_astrology",
          status := some "pending" }).1) 0 "xyz" = some "error" ∧
    get_result ((worker_on_event (set_pending emptyState "xyz" "p" 0) 0
        (Except.error "boom")
        { correlation_id := some "xyz", user_id := some "u1",
          user_message := some "hi", type := some "conversational_astrology",
          status := some "pending" }).1) 0 "xyz"
      = some fallback_error_message := by
  decide

/-- C2 (corrected): when the Generator raises for a pending task, the stored
result is the fixed user-safe fallback text — independent of the raised fault
text, which is never stored — and the published payload carries status
"error" with that same fallback text; but the final store status is
"completed", not "error", because the write goes through `set_result`. -/
theorem c2_generation_failure (s : RedisState) (now : Nat)
    (ev : TaskEvent) (c u m e : String)
    (hc : ev.correlation_id = some c) (hu : ev.user_id = some u)
    (hm : ev.user_message = some m)
    (htype : ev.type = some "conversational_astrology")
    (hst : ev.status = some "pending")
    (hp : get_status s now c = some "pending")
    (hc0 : c ≠ "") (hu0 : u ≠ "") (hm0 : m ≠ "") :
    (worker_on_event s now (Except.error e) ev).1
      = set_result s c fallback_error_message now ∧
    get_status ((worker_on_event s now (Except.error e) ev).1) now c
      = some "completed" ∧
    get_result ((worker_on_event s now (Except.error e) ev).1) now c
      = some fallback_error_message ∧
    (worker_on_event s now (Except.error e) ev).2
      = [⟨c, u, "error", fallback_error_message, toString now,
          "conversational_astrology_result"⟩] := by
  have h := worker_on_event_error s now e ev c u m hc hu hm htype hst hp hc0 hu0 hm0
  rw [h]
  exact ⟨rfl, get_status_set_result s c _ now now (by omega),
         get_result_set_result s c _ now now (by omega), rfl⟩

/-- C2 witness: the amended theorem at the concrete pending task "xyz" with
fault text "boom". -/
theorem c2_witness :
    get_result ((worker_on_event (set_pending emptyState "xyz" "p" 0) 0
        (Except.error "boom")
        { correlation_id := some "xyz", user_id := some "u2",
          user_message := some "hello", type := some "conversational_astrology",
          status := some "pending" }).1) 0 "xyz"
      = some fallback_error_message ∧
    get_status ((worker_on_event (set_pending emptyState "xyz" "p" 0) 0
        (Except.error "boom")
        { correlation_id := some "xyz", user_id := some "u2",
          user_message := some "hello", type := some "conversational_astrology",
          status := some "pending" }).1) 0 "xyz" = some "completed" := by
  have h := c2_generation_failure (set_pending emptyState "xyz" "p" 0) 0
    { correlation_id := some "xyz", user_id := some "u2",
      user_message := some "hello", type := some "conversational_astrology",
      status := some "pending" } "xyz" "u2" "hello" "boom" rfl rfl rfl rfl rfl
    (by decide) (by decide) (by decide) (by decide)
  exact ⟨h.2.2.1, h.2.1⟩

/-- C4 counterexample: with the store reporting status "error" (result text
"E" available), the monitor's first iteration hits the `else: break` branch
and sends the timeout message at elapsed time 0 — it neither returns the
error result text nor keeps polling until maxWait; likewise a record that
expires mid-poll (status `none` from 2 s on) makes it stop at elapsed 2,
well before maxWait = 300. -/
theorem c4_counterexample :
    monitor_task_completion (fun _ => some "error") (fun _ => some "E") 0
      = (MonitorOutcome.timedOut, 0) ∧
    (0 : Nat) < 300 ∧
    monitor_task_completion (fun t => if t = 0 then some "pending" else none)
        (fun _ => none) 0 = (MonitorOutcome.timedOut, 2) ∧
    (2 : Nat) < 300 := by
  refine ⟨?_, by omega, ?_, by omega⟩
  · unfold monitor_task_completion
    simp
  · unfold monitor_task_completion
    simp
    unfold monitor_task_completion
    simp

/-- C4 (corrected): per poll iteration the monitor behaves as follows —
"completed" returns the stored result (when present and non-empty);
"pending" sleeps 2 s and polls again; but every OTHER observed status
(working, error, or an absent/expired record) makes the loop break at once
and send the timeout message at the current elapsed time, rather than keep
polling until maxWait; only the pending path can exhaust the wait, and once
elapsed reaches maxWait = 300 the timeout message is sent. -/
theorem c4_monitor_amended (readS readR : Nat → Option String) (e : Nat) :
    (∀ r, e < 300 → readS e = some "completed" → readR e = some r → r ≠ "" →
      monitor_task_completion readS readR e = (MonitorOutcome.replied r, e)) ∧
    (e < 300 → readS e = some "pending" →
      monitor_task_completion readS readR e
        = monitor_task_completion readS readR (e + 2)) ∧
    (∀ st, e < 300 → readS e = some st → st ≠ "completed" → st ≠ "pending" →
      monitor_task_completion readS readR e = (MonitorOutcome.timedOut, e)) ∧
    (e < 300 → readS e = none →
      monitor_task_completion readS readR e = (MonitorOutcome.timedOut, e)) ∧
    (¬ e < 300 →
      monitor_task_completion readS readR e = (MonitorOutcome.timedOut, e)) := by
  refine ⟨?_, ?_, ?_, ?_, ?_⟩
  · intro r he hs hr hr0
    unfold monitor_task_completion
    simp [he, hs, hr, hr0]
  · intro he hs
    conv_lhs => unfold monitor_task_completion
    simp [he, hs]
  · intro st he hs hs1 hs2
    unfold monitor_task_completion
    simp [he, hs, hs1, hs2]
  · intro he hs
    unfold monitor_task_completion
    simp [he, hs]
  · intro he
    unfold monitor_task_completion
    simp [he]

/-- C4 witness: the amended theorem's branches evaluated at concrete
observations — a completed task at elapsed 4 returns the stored text, and a
"working" status at elapsed 4 makes the monitor stop there. -/
theorem c4_witness :
    monitor_task_completion (fun _ => some "completed") (fun _ => some "R") 4
      = (MonitorOutcome.replied "R", 4) ∧
    monitor_task_completion (fun _ => some "working") (fun _ => none) 4
      = (MonitorOutcome.timedOut, 4) := by
  constructor
  · exact (c4_monitor_amended (fun _ => some "completed") (fun _ => some "R") 4).1
      "R" (by omega) rfl rfl (by decide)
  · exact (c4_monitor_amended (fun _ => some "working") (fun _ => none) 4).2.2.1
      "working" (by omega) rfl (by decide) (by decide)

/-- C8 (confirmed): for a run in which the subscription fails `n` consecutive
times, the supervisor trace holds exactly `n + 1` subscribe attempts; the
trace is precisely `n` repetitions of (attempt, sleep 10) followed by the
final attempt, so consecutive attempts are separated by the fixed 10 s delay;
every sleep in the trace is exactly 10 s (no backoff growth), this holds for
every `n` (no maximum retry count), and the loop never emits a process exit. -/
theorem c8_supervisor_trace (n : Nat) :
    (run_consumer_loop_trace n).count SupEvent.subscribeAttempt = n + 1 ∧
    run_consumer_loop_trace n
      = (List.replicate n
          [SupEvent.subscribeAttempt, SupEvent.sleepDelay 10]).flatten
        ++ [SupEvent.subscribeAttempt] ∧
    (∀ d, SupEvent.sleepDelay d ∈ run_consumer_loop_trace n → d = 10) ∧
    SupEvent.processExit ∉ run_consumer_loop_trace n := by
  induction n with
  | zero =>
      refine ⟨by decide, by decide, ?_, by decide⟩
      intro d hd
      simp [run_consumer_loop_trace] at hd
  | succ k ih =>
      obtain ⟨ih1, ih2, ih3, ih4⟩ := ih
      refine ⟨?_, ?_, ?_, ?_⟩
      · simp [run_consumer_loop_trace, List.count_cons, ih1]
      · simp [run_consumer_loop_trace, List.replicate_succ, ih2]
      · intro d hd
        simp [run_consumer_loop_trace] at hd
        rcases hd with h | h
        · exact h
        · exact ih3 d h
      · simp [run_consumer_loop_trace]
        exact ih4

/-- C8 witness: the trace for three consecutive failures — four attempts,
each sleep exactly 10 s, and no process exit. -/
theorem c8_witness :
    (run_consumer_loop_trace 3).count SupEvent.subscribeAttempt = 4 ∧
    (10 : Nat) = 10 ∧
    SupEvent.processExit ∉ run_consumer_loop_trace 3 :=
  ⟨(c8_supervisor_trace 3).1,
   (c8_supervisor_trace 3).2.2.1 10 (by decide),
   (c8_supervisor_trace 3).2.2.2⟩

/-- Saving the history always stores exactly the last-10 suffix of the given
message list (the whole list when it has at most 10 entries). -/
theorem save_conversation_history_trunc (st : HistStore) (u : String)
    (messages : List ChatMsg) :
    save_conversation_history st u messages u
      = messages.drop (messages.length - 10) := by
  unfold save_conversation_history
  by_cases h : messages.length > 10
  · simp [h]
  · simp [h, Nat.sub_eq_zero_of_le (by omega : messages.length ≤ 10)]

/-- A save keeps every entry of the history store at length at most 10. -/
theorem save_conversation_history_len (st : HistStore) (u v : String)
    (messages : List ChatMsg) (hv : (st v).length ≤ 10) :
    (save_conversation_history st u messages v).length ≤ 10 := by
  unfold save_conversation_history
  by_cases hvu : v = u
  · subst hvu
    by_cases h : messages.length > 10 <;> simp [h, List.length_drop] <;> omega
  · simp [hvu, hv]

/-- The length-10 bound is an invariant of every sequence of history-layer
operations. -/
theorem applyHistOps_len (ops : List HistOp) :
    ∀ st : HistStore, (∀ v, (st v).length ≤ 10) →
      ∀ v, ((applyHistOps st ops) v).length ≤ 10 := by
  induction ops with
  | nil => intro st h v; exact h v
  | cons op rest ih =>
      intro st h v
      cases op with
      | gen u m r =>
          exact ih _ (fun w => save_conversation_history_len _ _ _ _ (h w)) v
      | save u msgs =>
          exact ih _ (fun w => save_conversation_history_len _ _ _ _ (h w)) v

/-- C9 (confirmed): every save stores the last-10 suffix of the message list,
so after any sequence of generate/save operations from an empty store, the
stored conversation history of every user has length at most 10. -/
theorem c9_history_bounded (ops : List HistOp) (u : String) :
    ((applyHistOps emptyHist ops) u).length ≤ 10 ∧
    (∀ st : HistStore, ∀ msgs : List ChatMsg,
      save_conversation_history st u msgs u
        = msgs.drop (msgs.length - 10)) := by
  constructor
  · exact applyHistOps_len ops emptyHist (fun v => by simp [emptyHist]) u
  · intro st msgs
    exact save_conversation_history_trunc st u msgs

/-- C10 (confirmed): the front-end result consumer writes the store only for
events with status "completed" that carry a truthy correlation id and a
truthy result; an "error" status, a status other than "completed", a missing
correlation id, or a missing result all leave the store untouched, and in the
accepting case the write is exactly `set_result`. -/
theorem c10_result_consumer (s : RedisState) (now : Nat) (ev : ResultEventMsg) :
    (ev.status = some "error" → on_completed_event s now ev = s) ∧
    (ev.status ≠ some "completed" → on_completed_event s now ev = s) ∧
    (ev.correlation_id = none → on_completed_event s now ev = s) ∧
    (ev.result = none → on_completed_event s now ev = s) ∧
    (∀ c r, ev.status = some "completed" → ev.correlation_id = some c →
      c ≠ "" → ev.result = some r → r ≠ "" →
      on_completed_event s now ev = set_result s c r now) := by
  refine ⟨?_, ?_, ?_, ?_, ?_⟩
  · intro h
    simp [on_completed_event, h]
  · intro h
    simp [on_completed_event, h]
  · intro h
    simp [on_completed_event, h, truthy]
  · intro h
    simp [on_completed_event, h, truthy]
  · intro c r hst hcid hc0 hres hr0
    simp [on_completed_event, hst, hcid, hres, truthy, hc0, hr0, pyStr]

/-- C10 witness: an error event for "abc" leaves the empty store untouched;
a completed event with non-empty id and result writes via `set_result`. -/
theorem c10_witness :
    on_completed_event emptyState 0
      { correlation_id := some "abc", status := some "error",
        result := some "E" } = emptyState ∧
    on_completed_event emptyState 0
      { correlation_id := some "abc", status := some "completed",
        result := some "R" } = set_result emptyState "abc" "R" 0 :=
  ⟨(c10_result_consumer emptyState 0
      { correlation_id := some "abc", status := some "error",
        result := some "E" }).1 rfl,
   (c10_result_consumer emptyState 0
      { correlation_id := some "abc", status := some "completed",
        result := some "R" }).2.2.2.2 "abc" "R" rfl rfl (by decide) rfl
      (by decide)⟩
